import Mathlib

/-!
# Verification of the AZURE-Weather backend (`src/backend/WeatherFunction/__init__.py`)

Shallow embedding of the Azure Function handler: the pure normalization
(`_normalize`), the error-response builder (`_error`) and the request flow
(`main`).  Machine-level details are modelled as follows:

* JSON numbers are embedded as `ℚ` (temperatures, wind speed) or `ℤ`
  (humidity, status codes, unix timestamps); Python's `round` (banker's
  rounding, half to even) is `pyRound` over exact rationals.
* Python `str.capitalize()` (first character upper-cased, the rest
  lower-cased) is `pyCapitalize`; `Char.toUpper`/`Char.toLower` act on the
  basic latin range exactly as CPython does for ASCII inputs.
* Python string comparison, slicing (`[:10]`) and substring test (`in`)
  operate on code points: slicing is `pyTake` (char-list `take`), the
  substring test is a direct scan (`strContains`), and the `sorted` order is
  the boolean lexicographic `pyLeP`, proved to coincide with the Mathlib
  `LinearOrder String` in `pyLeP_iff_le`.
* The two upstream HTTP calls are external effects; `main` takes their
  outcomes as parameters (`FetchOutcome`) and additionally returns the list
  of upstream endpoints it actually contacted, in order, so that claims
  about "no upstream call is issued" and "no retry" are statable.
* `json.dumps` on the fixed payload shape is modelled by `serializePayload`
  (insertion-ordered keys, default `", "` / `": "` separators).
-/

/-- Python `round(q)`: round half to even (banker's rounding), on exact
rationals. -/
def pyRound (q : ℚ) : ℤ :=
  if q - (⌊q⌋ : ℚ) < 1/2 then ⌊q⌋
  else if 1/2 < q - (⌊q⌋ : ℚ) then ⌊q⌋ + 1
  else if 2 ∣ ⌊q⌋ then ⌊q⌋ else ⌊q⌋ + 1

/-- Python `round(q, 1)`: round to one decimal place, half to even. -/
def pyRound1 (q : ℚ) : ℚ := (pyRound (q * 10) : ℚ) / 10

/-- Python `str.strip()` (no argument): remove leading and trailing
whitespace. -/
def pyStrip (s : String) : String :=
  String.mk (((s.data.dropWhile Char.isWhitespace).reverse.dropWhile Char.isWhitespace).reverse)

/-- Python `str.capitalize()`: first character upper-cased, all remaining
characters lower-cased. -/
def pyCapitalize (s : String) : String :=
  match s.data with
  | [] => ""
  | c :: cs => String.mk (c.toUpper :: cs.map Char.toLower)

/-- Python slicing `s[:n]`: the first `n` characters (code points). -/
def pyTake (s : String) (n : ℕ) : String := String.mk (s.data.take n)

/-- Does `needle` occur as a contiguous sublist starting at some position of
the second argument? -/
def containsAux (needle : List Char) : List Char → Bool
  | [] => needle.isEmpty
  | c :: t => needle.isPrefixOf (c :: t) || containsAux needle t

/-- Python `needle in hay` substring test (contiguous, by code points). -/
def strContains (hay needle : String) : Bool :=
  containsAux needle.data hay.data

/-- Python `<` on strings: lexicographic by code point, as a boolean `≤`
test on the underlying character lists. -/
def lexLe : List Char → List Char → Bool
  | [], _ => true
  | _ :: _, [] => false
  | a :: as, b :: bs =>
    if a < b then true
    else if b < a then false
    else lexLe as bs

/-- Python string `≤` (the comparison `sorted` induces on distinct keys). -/
def pyLeP (a b : String) : Prop := lexLe a.data b.data = true

instance : DecidableRel pyLeP := fun a b => by
  unfold pyLeP
  infer_instance

/-- `current["weather"][0]` / forecast item `["weather"][0]`. -/
structure WeatherDesc where
  description : String
  icon : String
deriving DecidableEq, Repr

/-- `current["main"]`. -/
structure CurrentMain where
  temp : ℚ
  feels_like : ℚ
  humidity : ℤ
deriving DecidableEq, Repr

/-- `current["wind"]`. -/
structure CurrentWind where
  speed : ℚ
deriving DecidableEq, Repr

/-- `current["sys"]`. -/
structure CurrentSys where
  country : String
deriving DecidableEq, Repr

/-- The current-weather document, restricted to the fields the handler
reads.  `weather0` is `weather[0]` (the code always indexes the first
element); `message` is `None` when the key is absent (`current.get`). -/
structure Current where
  cod : ℤ
  message : Option String
  dt : ℤ
  name : String
  main : CurrentMain
  weather0 : WeatherDesc
  wind : CurrentWind
  sys : CurrentSys
deriving DecidableEq, Repr

/-- `item["main"]` of a forecast list entry. -/
structure ItemMain where
  temp_min : ℚ
  temp_max : ℚ
deriving DecidableEq, Repr

/-- One entry of `forecast["list"]`. -/
structure ForecastItem where
  dt_txt : String
  main : ItemMain
  weather0 : WeatherDesc
deriving DecidableEq, Repr

/-- The forecast document: `list` is `none` when the `"list"` key is absent
(the code reads it with `forecast.get("list", [])`). -/
structure Forecast where
  list : Option (List ForecastItem)
deriving DecidableEq, Repr

/-- `forecast.get("list", [])`. -/
def Forecast.items (f : Forecast) : List ForecastItem := f.list.getD []

/-- `item["dt_txt"][:10]` — the `"YYYY-MM-DD"` date prefix. -/
def itemDate (i : ForecastItem) : String := pyTake i.dt_txt 10

/-- The readings grouped under date `d`: `days[d]`, in original list order
(dict `setdefault`/`append` preserves insertion order). -/
def readingsFor (items : List ForecastItem) (d : String) : List ForecastItem :=
  items.filter (fun i => itemDate i == d)

/-- The keys of the `days` dict in ascending order: `sorted(days.items())`
iterates the distinct dates sorted lexicographically (Python compares the
key-distinct pairs by their string keys, code point by code point). -/
def sortedDates (items : List ForecastItem) : List String :=
  ((items.map itemDate).dedup).insertionSort pyLeP

/-- One `.now` sub-object of the normalized payload. -/
structure NowObj where
  temp : ℤ
  feels_like : ℤ
  desc : String
  icon : String
  humidity : ℤ
  wind : ℚ
deriving DecidableEq, Repr

/-- One entry of the normalized `forecast` array. -/
structure DayEntry where
  date : String
  min : ℤ
  max : ℤ
  desc : String
  icon : String
deriving DecidableEq, Repr

/-- The normalized payload returned on success. -/
structure Payload where
  city : String
  country : String
  now : NowObj
  forecast : List DayEntry
deriving DecidableEq, Repr

/-- The body of the per-date loop: pick the noon reading if available, else
the first reading of the date (`readings[0]`), and aggregate min/max over
all readings of the date.  `none` only on an empty group, which the
grouping never produces. -/
def dayEntry (d : String) (readings : List ForecastItem) : Option DayEntry :=
  match readings with
  | [] => none
  | r0 :: rs =>
    let noon := ((r0 :: rs).find? (fun r => strContains r.dt_txt "12:00")).getD r0
    some {
      date := d
      min := pyRound (rs.foldl (fun a r => min a r.main.temp_min) r0.main.temp_min)
      max := pyRound (rs.foldl (fun a r => max a r.main.temp_max) r0.main.temp_max)
      desc := pyCapitalize noon.weather0.description
      icon := noon.weather0.icon }

/-- `_normalize(current, forecast)`: the loop over `sorted(days.items())`
with the `len(daily_forecast) >= 5` break appends one entry per date, so it
equals mapping `dayEntry` over the first five sorted dates. -/
def _normalize (current : Current) (forecast : Forecast) : Payload :=
  let items := forecast.items
  { city := current.name
    country := current.sys.country
    now := {
      temp := pyRound current.main.temp
      feels_like := pyRound current.main.feels_like
      desc := pyCapitalize current.weather0.description
      icon := current.weather0.icon
      humidity := current.main.humidity
      wind := pyRound1 current.wind.speed }
    forecast := ((sortedDates items).take 5).filterMap
      (fun d => dayEntry d (readingsFor items d)) }

/-- The forecast part of the normalization as the specification words it,
for refinement comparison with `_normalize`: "group forecast entries by the
first 10 characters of each entry's `dt_txt`; for each date pick the reading
whose timestamp contains `12:00`, falling back to the first reading of that
date; per-day min/max are the min/max of `temp_min`/`temp_max` across all
readings of the date, each rounded; emit at most 5 day entries sorted
ascending by date". -/
def specForecastDays (f : Forecast) : List DayEntry :=
  let entries := f.list.getD []
  let dates := ((entries.map (fun i => pyTake i.dt_txt 10)).dedup).insertionSort pyLeP
  (dates.take 5).filterMap (fun d =>
    let readings := entries.filter (fun i => pyTake i.dt_txt 10 == d)
    match (readings.find? (fun r => strContains r.dt_txt "12:00")).orElse
            (fun _ => readings.head?),
          (readings.map (fun r => r.main.temp_min)).min?,
          (readings.map (fun r => r.main.temp_max)).max? with
    | some pick, some lo, some hi =>
        some { date := d, min := pyRound lo, max := pyRound hi
               desc := pyCapitalize pick.weather0.description
               icon := pick.weather0.icon }
    | _, _, _ => none)

/-! ## JSON serialization (`json.dumps` on the fixed payload shape) -/

/-- `json.dumps` string escaping, restricted to the quote and backslash
escapes (the fixtures carry no control characters or non-ASCII text). -/
def jsonEscape (s : String) : String :=
  s.data.foldl
    (fun acc c =>
      acc ++ (if c = '"' then "\\\"" else if c = '\\' then "\\\\"
              else String.singleton c)) ""

/-- A JSON string literal. -/
def jsonStr (s : String) : String := "\"" ++ jsonEscape s ++ "\""

/-- A Python float with exactly one decimal digit, as `repr` prints it
(`4.1`, `-0.5`, `3.0`); the argument is `pyRound1` output, so its
denominator divides 10. -/
def jsonRat1 (q : ℚ) : String :=
  let n : ℤ := pyRound (q * 10)
  (if n < 0 then "-" else "") ++ toString (n.natAbs / 10) ++ "." ++ toString (n.natAbs % 10)

/-- One serialized forecast day object, keys in insertion order. -/
def serializeDay (e : DayEntry) : String :=
  "\x7b\"date\": " ++ jsonStr e.date ++
  ", \"min\": " ++ toString e.min ++
  ", \"max\": " ++ toString e.max ++
  ", \"desc\": " ++ jsonStr e.desc ++
  ", \"icon\": " ++ jsonStr e.icon ++ "\x7d"

/-- The serialized `now` object, keys in insertion order. -/
def serializeNow (n : NowObj) : String :=
  "\x7b\"temp\": " ++ toString n.temp ++
  ", \"feels_like\": " ++ toString n.feels_like ++
  ", \"desc\": " ++ jsonStr n.desc ++
  ", \"icon\": " ++ jsonStr n.icon ++
  ", \"humidity\": " ++ toString n.humidity ++
  ", \"wind\": " ++ jsonRat1 n.wind ++ "\x7d"

/-- `json.dumps(payload)` with the default separators and the dict's
insertion-ordered keys. -/
def serializePayload (p : Payload) : String :=
  "\x7b\"city\": " ++ jsonStr p.city ++
  ", \"country\": " ++ jsonStr p.country ++
  ", \"now\": " ++ serializeNow p.now ++
  ", \"forecast\": [" ++
    String.intercalate ", " (p.forecast.map serializeDay) ++ "]\x7d"

/-! ## The HTTP handler -/

/-- `func.HttpResponse` restricted to the fields the handler sets. -/
structure HttpResponse where
  body : String
  status_code : ℕ
  mimetype : String
  headers : List (String × String)
deriving DecidableEq, Repr

/-- `_error(status, message)`: JSON error response with the permissive
cross-origin header. -/
def _error (status : ℕ) (message : String) : HttpResponse :=
  { body := "\x7b\"error\": " ++ jsonStr message ++ "\x7d"
    status_code := status
    mimetype := "application/json"
    headers := [("Access-Control-Allow-Origin", "*")] }

/-- Outcome of one `requests.get(...)` + `raise_for_status()` + `.json()`
call: success with the parsed document, `requests.exceptions.Timeout`, or
any other `requests.exceptions.RequestException`. -/
inductive FetchOutcome (α : Type) where
  | ok (val : α)
  | timeout
  | failed
deriving DecidableEq, Repr

namespace WeatherFunction

/-- `main(req)`.  `cityParam` is `req.params.get("city", "")` (absent key →
`none`), `apiKeyEnv` is `os.environ.get("OPENWEATHER_API_KEY", "")` (absent
variable → `none`).  The upstream behaviours are parameters; the second
component of the result lists the upstream endpoints contacted, in order:
the current call precedes the forecast call, and an exception in the
current call prevents the forecast call. -/
def main (cityParam : Option String) (apiKeyEnv : Option String)
    (fetchCurrent : FetchOutcome Current) (fetchForecast : FetchOutcome Forecast) :
    HttpResponse × List String :=
  let city := pyStrip (cityParam.getD "")
  if city = "" then
    (_error 400 "Missing required parameter: city", [])
  else
    let apiKey := apiKeyEnv.getD ""
    if apiKey = "" then
      (_error 500 "Server configuration error: missing API key", [])
    else
      match fetchCurrent with
      | .timeout => (_error 504 "Upstream API timed out. Please try again.", ["weather"])
      | .failed => (_error 502 "Failed to reach weather service.", ["weather"])
      | .ok current =>
        match fetchForecast with
        | .timeout =>
            (_error 504 "Upstream API timed out. Please try again.", ["weather", "forecast"])
        | .failed =>
            (_error 502 "Failed to reach weather service.", ["weather", "forecast"])
        | .ok forecast =>
          if current.cod ≠ 200 then
            (_error 404 ("OpenWeather error: " ++ current.message.getD "City not found"),
             ["weather", "forecast"])
          else
            ({ body := serializePayload (_normalize current forecast)
               status_code := 200
               mimetype := "application/json"
               headers := [("Access-Control-Allow-Origin", "*")] },
             ["weather", "forecast"])

end WeatherFunction

/-- A concrete current-weather fixture (successful `cod`). -/
def fixtureCurrent : Current :=
  { cod := 200
    message := none
    dt := 1735725600
    name := "Lima"
    main := { temp := 41/2, feels_like := 21, humidity := 60 }
    weather0 := { description := "clear sky", icon := "01d" }
    wind := { speed := 41/10 }
    sys := { country := "PE" } }

/-- A concrete forecast item. -/
def mkFixtureItem (d t : String) (lo hi : ℚ) (ds : String) : ForecastItem :=
  { dt_txt := d ++ " " ++ t
    main := { temp_min := lo, temp_max := hi }
    weather0 := { description := ds, icon := "01d" } }

/-- A concrete two-day forecast fixture. -/
def fixtureForecast : Forecast :=
  { list := some
      [ mkFixtureItem "2025-01-02" "09:00:00" 10 12 "light rain"
      , mkFixtureItem "2025-01-01" "12:00:00" 8 15 "scattered clouds"
      , mkFixtureItem "2025-01-01" "09:00:00" 7 14 "few clouds"
      , mkFixtureItem "2025-01-02" "15:00:00" 9 16 "overcast clouds" ] }

/-- Hour-of-day strings for the 40-entry witness fixture. -/
def witnessHour : ℕ → String
  | 0 => "00:00:00"
  | 1 => "03:00:00"
  | 2 => "06:00:00"
  | 3 => "09:00:00"
  | 4 => "12:00:00"
  | 5 => "15:00:00"
  | 6 => "18:00:00"
  | _ => "21:00:00"

/-- A 40-entry forecast fixture: 8 three-hourly readings on each of 5
consecutive dates. -/
def witnessItems : List ForecastItem :=
  (List.range 40).map (fun n =>
    mkFixtureItem ("2025-01-0" ++ toString (n / 8 + 1)) (witnessHour (n % 8))
      10 12 "light rain")

/-! ## Supporting lemmas -/

lemma charOfNat_toNat (n : ℕ) (hv : n.isValidChar) : (Char.ofNat n).val.toNat = n := by
  simp [Char.ofNat, hv, Char.ofNatAux]
  rfl

lemma uint32_le_iff (a b : UInt32) : a ≤ b ↔ a.toNat ≤ b.toNat := by
  simp [UInt32.le_def, BitVec.le_def, UInt32.toNat]

/-- `str.capitalize()` never leaves a basic-latin lowercase letter in first
position: `Char.toUpper` output is never lowercase. -/
lemma toUpper_isLower (c : Char) : c.toUpper.isLower = false := by
  simp only [Char.toUpper, Char.isLower, Char.toNat]
  split
  case isTrue h =>
    have hv : (c.val.toNat - 32).isValidChar := by left; omega
    have h97 := charOfNat_toNat (c.val.toNat - 32) hv
    rw [Bool.and_eq_false_iff]
    left
    simp only [decide_eq_false_iff_not, ge_iff_le, uint32_le_iff]
    have h2 : (97 : UInt32).toNat = 97 := by decide
    omega
  case isFalse h =>
    rw [Bool.and_eq_false_iff]
    simp only [decide_eq_false_iff_not, ge_iff_le, uint32_le_iff]
    have h1 : (97 : UInt32).toNat = 97 := by decide
    have h2 : (122 : UInt32).toNat = 122 := by decide
    omega

lemma pyRound_bounds (q : ℚ) : ⌊q⌋ ≤ pyRound q ∧ pyRound q ≤ ⌊q⌋ + 1 := by
  unfold pyRound
  split_ifs <;> omega

/-- Python `round` is monotone (on exact rationals). -/
lemma pyRound_mono {a b : ℚ} (h : a ≤ b) : pyRound a ≤ pyRound b := by
  have hf : (⌊a⌋ : ℤ) ≤ ⌊b⌋ := Int.floor_le_floor h
  rcases eq_or_lt_of_le hf with heq | hlt
  · have hfrac : a - (⌊a⌋ : ℚ) ≤ b - (⌊b⌋ : ℚ) := by
      rw [← heq]
      linarith
    unfold pyRound
    split_ifs <;>
      first
        | omega
        | (exfalso; rw [heq] at hfrac; omega)
        | (exfalso; rw [← heq] at *; linarith)
  · have h1 := (pyRound_bounds a).2
    have h2 := (pyRound_bounds b).1
    omega

lemma foldl_min_le_init (a : ℚ) (l : List ℚ) : l.foldl min a ≤ a := by
  induction l generalizing a with
  | nil => simp
  | cons x xs ih => exact le_trans (ih (min a x)) (min_le_left a x)

lemma init_le_foldl_max (a : ℚ) (l : List ℚ) : a ≤ l.foldl max a := by
  induction l generalizing a with
  | nil => simp
  | cons x xs ih => exact le_trans (le_max_left a x) (ih (max a x))

/-- `lexLe` is the boolean form of the lexicographic order on char lists. -/
lemma lexLe_iff : ∀ (l₁ l₂ : List Char), lexLe l₁ l₂ = true ↔ ¬ List.Lex (· < ·) l₂ l₁
  | [], l₂ => by
    simp [lexLe, List.Lex.not_nil_right]
  | a :: as, [] => by
    simp [lexLe]
    exact List.Lex.nil
  | a :: as, b :: bs => by
    unfold lexLe
    split_ifs with h1 h2
    · simp only [true_iff]
      intro h
      cases h with
      | rel h' => exact absurd h' (asymm h1)
      | cons h' => exact lt_irrefl a h1
    · simp only [false_iff, not_not]
      exact List.Lex.rel h2
    · have heq : a = b := le_antisymm (le_of_not_lt h2) (le_of_not_lt h1)
      subst heq
      rw [lexLe_iff as bs, List.Lex.cons_iff]

/-- `pyLeP` coincides with Mathlib's lexicographic order on `String`. -/
lemma pyLeP_iff_le (a b : String) : pyLeP a b ↔ a ≤ b := by
  unfold pyLeP
  rw [lexLe_iff, String.le_iff_toList_le, ← not_lt]
  rfl

instance : IsTotal String pyLeP :=
  ⟨fun a b => by rw [pyLeP_iff_le, pyLeP_iff_le]; exact le_total a b⟩

instance : IsTrans String pyLeP :=
  ⟨fun a b c hab hbc => by
    rw [pyLeP_iff_le] at hab hbc ⊢
    exact le_trans hab hbc⟩

/-- Membership in the sorted date list is membership among the items'
dates. -/
lemma mem_sortedDates {items : List ForecastItem} {d : String} :
    d ∈ sortedDates items ↔ ∃ i ∈ items, itemDate i = d := by
  unfold sortedDates
  rw [(List.perm_insertionSort pyLeP _).mem_iff, List.mem_dedup, List.mem_map]

/-- Every date the grouping produced has a non-empty reading group. -/
lemma readingsFor_ne_nil {items : List ForecastItem} {d : String}
    (h : d ∈ sortedDates items) : readingsFor items d ≠ [] := by
  obtain ⟨i, hi, hd⟩ := mem_sortedDates.mp h
  intro hnil
  have hmem : i ∈ readingsFor items d := by
    simp [readingsFor, List.mem_filter, hi, hd]
  rw [hnil] at hmem
  exact absurd hmem (List.not_mem_nil i)

/-- The sorted date list is strictly increasing. -/
lemma sortedDates_pairwise_lt (items : List ForecastItem) :
    (sortedDates items).Pairwise (fun a b : String => a < b) := by
  have hs : (sortedDates items).Pairwise pyLeP :=
    List.sorted_insertionSort pyLeP ((items.map itemDate).dedup)
  have hnd : (sortedDates items).Nodup :=
    (List.perm_insertionSort pyLeP _).nodup_iff.mpr ((items.map itemDate).nodup_dedup)
  exact (hs.and hnd).imp (fun h => lt_of_le_of_ne ((pyLeP_iff_le _ _).mp h.1) h.2)

/-- Mapping the emitted dates over the per-date loop body recovers the date
list, whenever every date has a non-empty group. -/
lemma map_date_filterMap (items : List ForecastItem) :
    ∀ (l : List String), (∀ d ∈ l, readingsFor items d ≠ []) →
      ((l.filterMap (fun d => dayEntry d (readingsFor items d))).map DayEntry.date) = l := by
  intro l
  induction l with
  | nil => simp
  | cons d ds ih =>
    intro h
    have hne := h d (List.mem_cons_self d ds)
    rcases hr : readingsFor items d with _ | ⟨r0, rs⟩
    · exact absurd hr hne
    · obtain ⟨e, he, hd⟩ : ∃ e, dayEntry d (readingsFor items d) = some e ∧ e.date = d := by
        rw [hr]
        exact ⟨_, rfl, rfl⟩
      rw [List.filterMap_cons, he]
      simp [hd, ih (fun x hx => h x (List.mem_cons_of_mem d hx))]

/-- The emitted dates are exactly the first five sorted distinct dates. -/
lemma forecast_dates (c : Current) (f : Forecast) :
    ((_normalize c f).forecast.map DayEntry.date) = (sortedDates f.items).take 5 := by
  have hdef : (_normalize c f).forecast =
      ((sortedDates f.items).take 5).filterMap
        (fun d => dayEntry d (readingsFor f.items d)) := rfl
  rw [hdef]
  exact map_date_filterMap f.items _
    (fun d hd => readingsFor_ne_nil (List.take_subset 5 _ hd))

/-- The emitted dates are strictly increasing. -/
lemma forecast_dates_pairwise (c : Current) (f : Forecast) :
    ((_normalize c f).forecast.map DayEntry.date).Pairwise (fun a b : String => a < b) := by
  rw [forecast_dates]
  exact (sortedDates_pairwise_lt f.items).sublist (List.take_sublist 5 _)

/-! ## Request-flow claims -/

/-- C6: a request whose `city` parameter is absent, empty, or whitespace-only
(empty after trimming) yields the 400 error response and issues no upstream
call. -/
theorem empty_city_400_no_calls (cityParam apiKeyEnv : Option String)
    (fetchCurrent : FetchOutcome Current) (fetchForecast : FetchOutcome Forecast)
    (h : pyStrip (cityParam.getD "") = "") :
    WeatherFunction.main cityParam apiKeyEnv fetchCurrent fetchForecast =
      (_error 400 "Missing required parameter: city", []) := by
  simp [WeatherFunction.main, h]

theorem empty_city_400_no_calls_witness :
    pyStrip ((some "   " : Option String).getD "") = "" ∧
    WeatherFunction.main (some "   ") (some "key") FetchOutcome.timeout FetchOutcome.timeout =
      (_error 400 "Missing required parameter: city", []) :=
  ⟨by decide, empty_city_400_no_calls (some "   ") (some "key") FetchOutcome.timeout
      FetchOutcome.timeout (by decide)⟩

/-- C5 counterexample: with the API key absent but the `city` parameter
empty, the handler returns 400, not 500 — the validation of `city` runs
before the key check, so "500 regardless of the city value" fails. -/
theorem missing_key_empty_city_counterexample :
    (WeatherFunction.main (some " ") none FetchOutcome.timeout FetchOutcome.timeout).1.status_code
        = 400 ∧
    (WeatherFunction.main (some " ") none FetchOutcome.timeout FetchOutcome.timeout).1.status_code
        ≠ 500 := by
  constructor
  · rfl
  · decide

/-- C5 (amended): when the API key is absent or empty and the `city`
parameter is non-empty after trimming, the handler returns the 500
configuration-error response (and issues no upstream call). -/
theorem missing_key_nonempty_city_500 (cityParam apiKeyEnv : Option String)
    (fetchCurrent : FetchOutcome Current) (fetchForecast : FetchOutcome Forecast)
    (hc : pyStrip (cityParam.getD "") ≠ "") (hk : apiKeyEnv.getD "" = "") :
    WeatherFunction.main cityParam apiKeyEnv fetchCurrent fetchForecast =
      (_error 500 "Server configuration error: missing API key", []) := by
  simp [WeatherFunction.main, hc, hk]

theorem missing_key_nonempty_city_500_witness :
    pyStrip ((some "Lima" : Option String).getD "") ≠ "" ∧
    ((none : Option String).getD "") = "" ∧
    WeatherFunction.main (some "Lima") none FetchOutcome.timeout FetchOutcome.timeout =
      (_error 500 "Server configuration error: missing API key", []) :=
  ⟨by decide, by decide, missing_key_nonempty_city_500 (some "Lima") none FetchOutcome.timeout
      FetchOutcome.timeout (by decide) (by decide)⟩

/-- C4: with a non-empty city and configured key, if both fetches succeed
but the current document's `cod` field is not 200, the handler returns the
404 error whose message embeds the upstream message, defaulting to
`"City not found"` when that message is absent. -/
theorem upstream_cod_not_success_404 (cityParam apiKeyEnv : Option String)
    (c : Current) (f : Forecast)
    (hc : pyStrip (cityParam.getD "") ≠ "") (hk : apiKeyEnv.getD "" ≠ "")
    (hcod : c.cod ≠ 200) :
    WeatherFunction.main cityParam apiKeyEnv (FetchOutcome.ok c) (FetchOutcome.ok f) =
      (_error 404 ("OpenWeather error: " ++ c.message.getD "City not found"),
       ["weather", "forecast"]) := by
  simp [WeatherFunction.main, hc, hk, hcod]

theorem upstream_cod_not_success_404_witness :
    pyStrip ((some "Lima" : Option String).getD "") ≠ "" ∧
    ((some "key" : Option String).getD "") ≠ "" ∧
    ({ fixtureCurrent with cod := 404, message := some "city not found" } : Current).cod ≠ 200 ∧
    WeatherFunction.main (some "Lima") (some "key")
        (FetchOutcome.ok { fixtureCurrent with cod := 404, message := some "city not found" })
        (FetchOutcome.ok fixtureForecast) =
      (_error 404 "OpenWeather error: city not found", ["weather", "forecast"]) :=
  ⟨by decide, by decide, by decide,
   upstream_cod_not_success_404 (some "Lima") (some "key")
     { fixtureCurrent with cod := 404, message := some "city not found" } fixtureForecast
     (by decide) (by decide) (by decide)⟩

/-- C7: with a non-empty city and configured key, an upstream timeout yields
the 504 response and any other transport failure the 502 response, whichever
of the two sequential calls fails; and no retry happens — each upstream
endpoint is contacted at most once on every path. -/
theorem timeout_504_transport_502_no_retry (cityParam apiKeyEnv : Option String)
    (hc : pyStrip (cityParam.getD "") ≠ "") (hk : apiKeyEnv.getD "" ≠ "") :
    (∀ ff, WeatherFunction.main cityParam apiKeyEnv FetchOutcome.timeout ff =
        (_error 504 "Upstream API timed out. Please try again.", ["weather"])) ∧
    (∀ ff, WeatherFunction.main cityParam apiKeyEnv FetchOutcome.failed ff =
        (_error 502 "Failed to reach weather service.", ["weather"])) ∧
    (∀ c, WeatherFunction.main cityParam apiKeyEnv (FetchOutcome.ok c) FetchOutcome.timeout =
        (_error 504 "Upstream API timed out. Please try again.", ["weather", "forecast"])) ∧
    (∀ c, WeatherFunction.main cityParam apiKeyEnv (FetchOutcome.ok c) FetchOutcome.failed =
        (_error 502 "Failed to reach weather service.", ["weather", "forecast"])) ∧
    (∀ fc ff, (WeatherFunction.main cityParam apiKeyEnv fc ff).2.count "weather" ≤ 1 ∧
        (WeatherFunction.main cityParam apiKeyEnv fc ff).2.count "forecast" ≤ 1) := by
  refine ⟨fun ff => by simp [WeatherFunction.main, hc, hk],
          fun ff => by simp [WeatherFunction.main, hc, hk],
          fun c => by simp [WeatherFunction.main, hc, hk],
          fun c => by simp [WeatherFunction.main, hc, hk],
          fun fc ff => ?_⟩
  cases fc with
  | timeout => simp [WeatherFunction.main, hc, hk]
  | failed => simp [WeatherFunction.main, hc, hk]
  | ok c =>
    cases ff with
    | timeout => simp [WeatherFunction.main, hc, hk]
    | failed => simp [WeatherFunction.main, hc, hk]
    | ok f =>
      by_cases hcod : c.cod = 200 <;> simp [WeatherFunction.main, hc, hk, hcod]

theorem timeout_504_transport_502_no_retry_witness :
    pyStrip ((some "Lima" : Option String).getD "") ≠ "" ∧
    ((some "key" : Option String).getD "") ≠ "" ∧
    (∀ ff, WeatherFunction.main (some "Lima") (some "key") FetchOutcome.timeout ff =
        (_error 504 "Upstream API timed out. Please try again.", ["weather"])) ∧
    (∀ ff, WeatherFunction.main (some "Lima") (some "key") FetchOutcome.failed ff =
        (_error 502 "Failed to reach weather service.", ["weather"])) ∧
    (∀ c, WeatherFunction.main (some "Lima") (some "key") (FetchOutcome.ok c) FetchOutcome.timeout =
        (_error 504 "Upstream API timed out. Please try again.", ["weather", "forecast"])) ∧
    (∀ c, WeatherFunction.main (some "Lima") (some "key") (FetchOutcome.ok c) FetchOutcome.failed =
        (_error 502 "Failed to reach weather service.", ["weather", "forecast"])) ∧
    (∀ fc ff, (WeatherFunction.main (some "Lima") (some "key") fc ff).2.count "weather" ≤ 1 ∧
        (WeatherFunction.main (some "Lima") (some "key") fc ff).2.count "forecast" ≤ 1) :=
  ⟨by decide, by decide,
   (timeout_504_transport_502_no_retry (some "Lima") (some "key") (by decide) (by decide)).1,
   (timeout_504_transport_502_no_retry (some "Lima") (some "key") (by decide) (by decide)).2.1,
   (timeout_504_transport_502_no_retry (some "Lima") (some "key") (by decide) (by decide)).2.2.1,
   (timeout_504_transport_502_no_retry (some "Lima") (some "key") (by decide) (by decide)).2.2.2.1,
   (timeout_504_transport_502_no_retry (some "Lima") (some "key") (by decide) (by decide)).2.2.2.2⟩

/-- C8: normalization plus serialization is deterministic — identical
upstream documents produce byte-identical output JSON. -/
theorem normalize_deterministic (c₁ c₂ : Current) (f₁ f₂ : Forecast)
    (hc : c₁ = c₂) (hf : f₁ = f₂) :
    serializePayload (_normalize c₁ f₁) = serializePayload (_normalize c₂ f₂) := by
  rw [hc, hf]

theorem normalize_deterministic_witness :
    fixtureCurrent = fixtureCurrent ∧ fixtureForecast = fixtureForecast ∧
    serializePayload (_normalize fixtureCurrent fixtureForecast) =
      serializePayload (_normalize fixtureCurrent fixtureForecast) :=
  ⟨rfl, rfl, normalize_deterministic fixtureCurrent fixtureCurrent fixtureForecast fixtureForecast
      rfl rfl⟩

/-- C9: every response carries the permissive cross-origin header and a JSON
mimetype; a 200 response's body is the serialized normalized payload of the
two successfully fetched documents, and every failure body is exactly the
`\x7b"error": message\x7d` object with one of the mapped status codes. -/
theorem responses_cors_json (cityParam apiKeyEnv : Option String)
    (fc : FetchOutcome Current) (ff : FetchOutcome Forecast) :
    (WeatherFunction.main cityParam apiKeyEnv fc ff).1.headers =
        [("Access-Control-Allow-Origin", "*")] ∧
    (WeatherFunction.main cityParam apiKeyEnv fc ff).1.mimetype = "application/json" ∧
    ((∃ c f, fc = FetchOutcome.ok c ∧ ff = FetchOutcome.ok f ∧ c.cod = 200 ∧
        (WeatherFunction.main cityParam apiKeyEnv fc ff).1.status_code = 200 ∧
        (WeatherFunction.main cityParam apiKeyEnv fc ff).1.body =
          serializePayload (_normalize c f)) ∨
     (∃ m, (WeatherFunction.main cityParam apiKeyEnv fc ff).1.body =
            "\x7b\"error\": " ++ jsonStr m ++ "\x7d" ∧
        (WeatherFunction.main cityParam apiKeyEnv fc ff).1.status_code ∈
          ([400, 404, 500, 502, 504] : List ℕ))) := by
  by_cases h1 : pyStrip (cityParam.getD "") = ""
  · exact ⟨by simp [WeatherFunction.main, h1, _error],
          by simp [WeatherFunction.main, h1, _error],
          Or.inr ⟨"Missing required parameter: city",
            by simp [WeatherFunction.main, h1, _error], by simp [WeatherFunction.main, h1, _error]⟩⟩
  by_cases h2 : apiKeyEnv.getD "" = ""
  · exact ⟨by simp [WeatherFunction.main, h1, h2, _error],
          by simp [WeatherFunction.main, h1, h2, _error],
          Or.inr ⟨"Server configuration error: missing API key",
            by simp [WeatherFunction.main, h1, h2, _error],
            by simp [WeatherFunction.main, h1, h2, _error]⟩⟩
  cases fc with
  | timeout =>
    exact ⟨by simp [WeatherFunction.main, h1, h2, _error],
          by simp [WeatherFunction.main, h1, h2, _error],
          Or.inr ⟨"Upstream API timed out. Please try again.",
            by simp [WeatherFunction.main, h1, h2, _error],
            by simp [WeatherFunction.main, h1, h2, _error]⟩⟩
  | failed =>
    exact ⟨by simp [WeatherFunction.main, h1, h2, _error],
          by simp [WeatherFunction.main, h1, h2, _error],
          Or.inr ⟨"Failed to reach weather service.",
            by simp [WeatherFunction.main, h1, h2, _error],
            by simp [WeatherFunction.main, h1, h2, _error]⟩⟩
  | ok c =>
    cases ff with
    | timeout =>
      exact ⟨by simp [WeatherFunction.main, h1, h2, _error],
            by simp [WeatherFunction.main, h1, h2, _error],
            Or.inr ⟨"Upstream API timed out. Please try again.",
              by simp [WeatherFunction.main, h1, h2, _error],
              by simp [WeatherFunction.main, h1, h2, _error]⟩⟩
    | failed =>
      exact ⟨by simp [WeatherFunction.main, h1, h2, _error],
            by simp [WeatherFunction.main, h1, h2, _error],
            Or.inr ⟨"Failed to reach weather service.",
              by simp [WeatherFunction.main, h1, h2, _error],
              by simp [WeatherFunction.main, h1, h2, _error]⟩⟩
    | ok f =>
      by_cases hcod : c.cod = 200
      · exact ⟨by simp [WeatherFunction.main, h1, h2, hcod],
              by simp [WeatherFunction.main, h1, h2, hcod],
              Or.inl ⟨c, f, rfl, rfl, hcod,
                by simp [WeatherFunction.main, h1, h2, hcod],
                by simp [WeatherFunction.main, h1, h2, hcod]⟩⟩
      · exact ⟨by simp [WeatherFunction.main, h1, h2, hcod, _error],
              by simp [WeatherFunction.main, h1, h2, hcod, _error],
              Or.inr ⟨"OpenWeather error: " ++ c.message.getD "City not found",
                by simp [WeatherFunction.main, h1, h2, hcod, _error],
                by simp [WeatherFunction.main, h1, h2, hcod, _error]⟩⟩

/-- `dayEntry` computes exactly what the specification's wording asks for on
each non-empty group (and nothing on an empty group). -/
lemma dayEntry_eq_spec (d : String) (readings : List ForecastItem) :
    dayEntry d readings =
      match (readings.find? (fun r => strContains r.dt_txt "12:00")).orElse
              (fun _ => readings.head?),
            (readings.map (fun r => r.main.temp_min)).min?,
            (readings.map (fun r => r.main.temp_max)).max? with
      | some pick, some lo, some hi =>
          some { date := d, min := pyRound lo, max := pyRound hi
                 desc := pyCapitalize pick.weather0.description
                 icon := pick.weather0.icon }
      | _, _, _ => none := by
  cases readings with
  | nil => rfl
  | cons r0 rs =>
    cases hfind : (r0 :: rs).find? (fun r => strContains r.dt_txt "12:00") with
    | none =>
      simp [dayEntry, hfind, List.min?, List.max?, List.foldl_map, Option.orElse]
    | some x =>
      simp [dayEntry, hfind, List.min?, List.max?, List.foldl_map, Option.orElse]

/-- The code's forecast construction equals the specification's wording. -/
lemma normalize_forecast_eq_spec (c : Current) (f : Forecast) :
    (_normalize c f).forecast = specForecastDays f := by
  have hdef : (_normalize c f).forecast =
      ((sortedDates f.items).take 5).filterMap
        (fun d => dayEntry d (readingsFor f.items d)) := rfl
  rw [hdef]
  refine List.filterMap_congr ?_
  intro d _
  exact dayEntry_eq_spec d (readingsFor f.items d)

/-- The first character `str.capitalize()` emits is never a lowercase
letter. -/
lemma pyCapitalize_head_not_lower (s : String) :
    ∀ ch ∈ (pyCapitalize s).data.head?, ch.isLower = false := by
  cases h : s.data with
  | nil => simp [pyCapitalize, h]
  | cons c cs =>
    simp [pyCapitalize, h]
    exact toUpper_isLower c

/-- Every emitted forecast description starts with a non-lowercase
character. -/
lemma forecast_desc_capitalized (c : Current) (f : Forecast) :
    ∀ e ∈ (_normalize c f).forecast, ∀ ch ∈ e.desc.data.head?, ch.isLower = false := by
  intro e he
  have hdef : (_normalize c f).forecast =
      ((sortedDates f.items).take 5).filterMap
        (fun d => dayEntry d (readingsFor f.items d)) := rfl
  rw [hdef] at he
  obtain ⟨d, _, hde⟩ := List.mem_filterMap.mp he
  rcases hr : readingsFor f.items d with _ | ⟨r0, rs⟩
  · rw [hr] at hde
    exact absurd hde (by simp [dayEntry])
  · rw [hr] at hde
    obtain rfl := Option.some.inj hde
    exact pyCapitalize_head_not_lower _

/-! ## Normalization claims -/

/-- C1: the normalization groups entries by the first 10 characters of
`dt_txt`, picks the `12:00` reading (else the first) per date for the
description and icon, aggregates min/max of `temp_min`/`temp_max` across the
date's readings with rounding, and emits at most 5 entries sorted ascending
by date — stated as a refinement of the spec-worded `specForecastDays`
together with the bound and sortedness. -/
theorem normalize_forecast_matches_spec (c : Current) (f : Forecast) :
    (_normalize c f).forecast = specForecastDays f ∧
    (_normalize c f).forecast.length ≤ 5 ∧
    ((_normalize c f).forecast.map DayEntry.date).Pairwise (fun a b : String => a < b) := by
  refine ⟨normalize_forecast_eq_spec c f, ?_, forecast_dates_pairwise c f⟩
  have h := congrArg List.length (forecast_dates c f)
  rw [List.length_map, List.length_take] at h
  omega

/-- C3: no date is dropped — the emitted dates are exactly the first (up to)
5 distinct dates in ascending order; the forecast array does not depend on
the current-weather document at all (in particular not on its `dt`), so a
first forecast date equal to the current day is emitted first all the
same. -/
theorem no_day_excluded (c : Current) (f : Forecast) :
    ((_normalize c f).forecast.map DayEntry.date) = (sortedDates f.items).take 5 ∧
    (∀ c₂ : Current, (_normalize c₂ f).forecast = (_normalize c f).forecast) ∧
    ((_normalize c f).forecast.head?).map DayEntry.date = (sortedDates f.items).head? := by
  refine ⟨forecast_dates c f, fun c₂ => rfl, ?_⟩
  rw [← List.head?_map, forecast_dates c f]
  cases sortedDates f.items <;> simp

/-- C2: for any current fixture and any 40-entry forecast whose entries span
exactly 5 distinct dates, the output forecast has exactly 5 entries, sorted
strictly ascending by date, and every description starts with a
non-lowercase character (min and max are integers by construction,
`pyRound` outputs). -/
theorem fixture_forecast_five_sorted_capitalized (c : Current) (items : List ForecastItem)
    (h40 : items.length = 40)
    (h5 : ((items.map itemDate).dedup).length = 5) :
    ((_normalize c { list := some items }).forecast).length = 5 ∧
    (((_normalize c { list := some items }).forecast).map DayEntry.date).Pairwise
      (fun a b : String => a < b) ∧
    (∀ e ∈ (_normalize c { list := some items }).forecast,
      ∀ ch ∈ e.desc.data.head?, ch.isLower = false) := by
  refine ⟨?_, forecast_dates_pairwise _ _, forecast_desc_capitalized _ _⟩
  have h := congrArg List.length (forecast_dates c { list := some items })
  rw [List.length_map, List.length_take] at h
  have hlen : (sortedDates ({ list := some items } : Forecast).items).length = 5 := by
    show (((items.map itemDate).dedup).insertionSort pyLeP).length = 5
    rw [(List.perm_insertionSort pyLeP _).length_eq]
    exact h5
  rw [h, hlen]
  simp

theorem fixture_forecast_five_sorted_capitalized_witness :
    witnessItems.length = 40 ∧
    ((witnessItems.map itemDate).dedup).length = 5 ∧
    (((_normalize fixtureCurrent { list := some witnessItems }).forecast).length = 5 ∧
     (((_normalize fixtureCurrent { list := some witnessItems }).forecast).map
        DayEntry.date).Pairwise (fun a b : String => a < b) ∧
     (∀ e ∈ (_normalize fixtureCurrent { list := some witnessItems }).forecast,
       ∀ ch ∈ e.desc.data.head?, ch.isLower = false)) :=
  ⟨by decide, by decide,
   fixture_forecast_five_sorted_capitalized fixtureCurrent witnessItems (by decide) (by decide)⟩

/-- C10: whenever every reading satisfies `temp_min ≤ temp_max`, each
emitted day satisfies `min ≤ max`; and a forecast document with a missing
or empty `list` field normalizes to an empty forecast array rather than an
error. -/
theorem day_min_le_max_and_missing_list (c : Current) (f : Forecast)
    (h : ∀ i ∈ f.items, i.main.temp_min ≤ i.main.temp_max) :
    (∀ e ∈ (_normalize c f).forecast, e.min ≤ e.max) ∧
    (∀ c₂ : Current, (_normalize c₂ { list := none }).forecast = [] ∧
      (_normalize c₂ { list := some [] }).forecast = []) := by
  constructor
  · intro e he
    have hdef : (_normalize c f).forecast =
        ((sortedDates f.items).take 5).filterMap
          (fun d => dayEntry d (readingsFor f.items d)) := rfl
    rw [hdef] at he
    obtain ⟨d, _, hde⟩ := List.mem_filterMap.mp he
    rcases hr : readingsFor f.items d with _ | ⟨r0, rs⟩
    · rw [hr] at hde
      exact absurd hde (by simp [dayEntry])
    · rw [hr] at hde
      obtain rfl := Option.some.inj hde
      show pyRound (rs.foldl (fun a r => min a r.main.temp_min) r0.main.temp_min) ≤
        pyRound (rs.foldl (fun a r => max a r.main.temp_max) r0.main.temp_max)
      have hsub : ∀ x ∈ r0 :: rs, x ∈ f.items := by
        intro x hx
        rw [← hr] at hx
        exact List.mem_of_mem_filter hx
      have h1 : rs.foldl (fun a r => min a r.main.temp_min) r0.main.temp_min ≤
          r0.main.temp_min := by
        rw [show rs.foldl (fun a r => min a r.main.temp_min) r0.main.temp_min =
            (rs.map (fun r => r.main.temp_min)).foldl min r0.main.temp_min from
          (List.foldl_map _ _ _ _).symm]
        exact foldl_min_le_init _ _
      have h2 : r0.main.temp_min ≤ r0.main.temp_max :=
        h r0 (hsub r0 (List.mem_cons_self r0 rs))
      have h3 : r0.main.temp_max ≤
          rs.foldl (fun a r => max a r.main.temp_max) r0.main.temp_max := by
        rw [show rs.foldl (fun a r => max a r.main.temp_max) r0.main.temp_max =
            (rs.map (fun r => r.main.temp_max)).foldl max r0.main.temp_max from
          (List.foldl_map _ _ _ _).symm]
        exact init_le_foldl_max _ _
      exact pyRound_mono (le_trans h1 (le_trans h2 h3))
  · intro c₂
    exact ⟨rfl, rfl⟩

theorem day_min_le_max_and_missing_list_witness :
    (∀ i ∈ fixtureForecast.items, i.main.temp_min ≤ i.main.temp_max) ∧
    ((∀ e ∈ (_normalize fixtureCurrent fixtureForecast).forecast, e.min ≤ e.max) ∧
     (∀ c₂ : Current, (_normalize c₂ { list := none }).forecast = [] ∧
       (_normalize c₂ { list := some [] }).forecast = [])) :=
  ⟨by decide, day_min_le_max_and_missing_list fixtureCurrent fixtureForecast (by decide)⟩
